import Mathlib

set_option maxRecDepth 100000

/-!
# TalkTo — verification of the core messaging-hub behaviour

Shallow embedding of the TalkTo server's data model and the operations the
specification talks about: the WebSocket fan-out substrate (broadcast,
channel-targeted broadcast, per-client sliding-window rate limiting), the
liveness / ghost detector, the message read and write paths, onboarding,
the workspace migrations, search, and the agent name generator.
-/

namespace TalkTo

/-! ## Rate limiter (ws-manager `isRateLimited`)

The source keeps, per client, `recentMessages : number[]` — the `Date.now()`
timestamps of frames that were *accepted*.  On each inbound frame it prunes
entries with `now - ts >= 10_000`, rejects when 30 entries remain, and
otherwise appends `now`. -/

/-- Sliding window duration in milliseconds (`RATE_LIMIT_WINDOW_MS`). -/
def rateLimitWindowMs : Int := 10000

/-- Max accepted frames per window (`RATE_LIMIT_MAX`). -/
def rateLimitMax : Nat := 30

/-- The pruning predicate of `isRateLimited`: `now - ts < RATE_LIMIT_WINDOW_MS`. -/
def inWindow (now ts : Int) : Bool := now - ts < rateLimitWindowMs

/-- One step of `isRateLimited` for a connected client: given the stored
`recentMessages` timestamps and the current time, returns the decision
(`true` = frame rejected) and the updated timestamp list. -/
def rlStep (st : List Int) (now : Int) : Bool × List Int :=
  let pruned := st.filter (inWindow now)
  if rateLimitMax ≤ pruned.length then (true, pruned)
  else (false, pruned ++ [now])

/-- The `recentMessages` list of a fresh client after a sequence of inbound
control-frame arrival times has been processed. -/
def rlStateFrom (st : List Int) : List Int → List Int
  | [] => st
  | t :: r => rlStateFrom (rlStep st t).2 r

/-- Arrival times of the frames that the rate limiter *accepted*, processing
the trace from state `st`. -/
def rlAcceptedFrom (st : List Int) : List Int → List Int
  | [] => []
  | t :: r =>
      let (limited, st') := rlStep st t
      if limited then rlAcceptedFrom st' r else t :: rlAcceptedFrom st' r

/-- Accepted arrival times of a fresh client. -/
def rlAccepted (trace : List Int) : List Int := rlAcceptedFrom [] trace

/-- Whether a frame arriving at time `t`, after the trace `trace`, is
rejected by the rate limiter. -/
def rlLimited (trace : List Int) (t : Int) : Bool :=
  (rlStep (rlStateFrom [] trace) t).1

example : rlLimited (List.replicate 30 0) 0 = true := by decide
example : rlLimited (List.replicate 29 0) 0 = false := by decide
example : rlLimited (List.replicate 30 0) 10000 = false := by decide

/-- Pruning with an earlier `now` never removes a timestamp that a later
`now` would keep: filtering by the later window absorbs the earlier prune. -/
theorem filter_inWindow_filter (st : List Int) {u t : Int} (h : u ≤ t) :
    (st.filter (inWindow u)).filter (inWindow t) = st.filter (inWindow t) := by
  induction st with
  | nil => rfl
  | cons a l ih =>
    by_cases hu : inWindow u a = true
    · by_cases ht : inWindow t a = true <;>
        simp [List.filter_cons, hu, ht, ih]
    · have ht : inWindow t a = false := by
        simp only [inWindow, decide_eq_true_eq, decide_eq_false_iff_not] at hu ⊢
        omega
      simp [List.filter_cons, hu, ht, ih]

/-- Invariant of the sliding window: viewed through the window of any time
`t` at or after every frame of the trace, the stored `recentMessages` list
is exactly the list of accepted arrival times. -/
theorem rlStateFrom_filter (t : Int) :
    ∀ (l : List Int) (st : List Int), (∀ x ∈ l, x ≤ t) →
    (rlStateFrom st l).filter (inWindow t) =
      (st ++ rlAcceptedFrom st l).filter (inWindow t)
  | [], st, _ => by simp [rlStateFrom, rlAcceptedFrom]
  | u :: r, st, h => by
    have hu : u ≤ t := h u (by simp)
    have hr : ∀ x ∈ r, x ≤ t := fun x hx => h x (by simp [hx])
    by_cases hlim : rateLimitMax ≤ (st.filter (inWindow u)).length
    · have hstep : rlStep st u = (true, st.filter (inWindow u)) := by
        simp [rlStep, hlim]
      rw [show rlStateFrom st (u :: r) = rlStateFrom (st.filter (inWindow u)) r by
            simp [rlStateFrom, hstep],
          show rlAcceptedFrom st (u :: r) = rlAcceptedFrom (st.filter (inWindow u)) r by
            simp [rlAcceptedFrom, hstep],
          rlStateFrom_filter t r _ hr, List.filter_append, List.filter_append,
          filter_inWindow_filter st hu]
    · have hstep : rlStep st u = (false, st.filter (inWindow u) ++ [u]) := by
        simp [rlStep, hlim]
      rw [show rlStateFrom st (u :: r) = rlStateFrom (st.filter (inWindow u) ++ [u]) r by
            simp [rlStateFrom, hstep],
          show rlAcceptedFrom st (u :: r) = u :: rlAcceptedFrom (st.filter (inWindow u) ++ [u]) r by
            simp [rlAcceptedFrom, hstep],
          rlStateFrom_filter t r _ hr]
      simp only [List.filter_append, List.append_assoc, filter_inWindow_filter st hu,
        List.filter_cons]
      by_cases hut : inWindow t u = true <;> simp [hut]

/-- The stored timestamp list never exceeds 30 entries. -/
theorem rlStateFrom_length_le :
    ∀ (l : List Int) (st : List Int), st.length ≤ rateLimitMax →
    (rlStateFrom st l).length ≤ rateLimitMax
  | [], _, h => h
  | u :: r, st, h => by
    by_cases hlim : rateLimitMax ≤ (st.filter (inWindow u)).length
    · have hstep : rlStep st u = (true, st.filter (inWindow u)) := by simp [rlStep, hlim]
      rw [show rlStateFrom st (u :: r) = rlStateFrom (st.filter (inWindow u)) r by
            simp [rlStateFrom, hstep]]
      exact rlStateFrom_length_le r _ (le_trans (List.length_filter_le _ _) h)
    · have hstep : rlStep st u = (false, st.filter (inWindow u) ++ [u]) := by
        simp [rlStep, hlim]
      rw [show rlStateFrom st (u :: r) = rlStateFrom (st.filter (inWindow u) ++ [u]) r by
            simp [rlStateFrom, hstep]]
      refine rlStateFrom_length_le r _ ?_
      have := Nat.lt_of_not_le hlim
      simp only [List.length_append, List.length_cons, List.length_nil]
      omega

/-- C5: for a WebSocket client and a sequence of inbound control-frame
arrival times (all at or before the current frame's time `t`), the frame at
`t` is rejected by the rate limiter if and only if 30 frames have already
been accepted within the preceding 10 seconds. -/
theorem c5_rate_limit_iff (trace : List Int) (t : Int)
    (h : ∀ x ∈ trace, x ≤ t) :
    rlLimited trace t = true ↔
      ((rlAccepted trace).filter (inWindow t)).length = rateLimitMax := by
  have hstate : (rlStateFrom [] trace).filter (inWindow t) =
      (rlAccepted trace).filter (inWindow t) := by
    have := rlStateFrom_filter t trace [] h
    simpa [rlAccepted] using this
  have hlen : ((rlAccepted trace).filter (inWindow t)).length ≤ rateLimitMax := by
    rw [← hstate]
    exact le_trans (List.length_filter_le _ _)
      (rlStateFrom_length_le trace [] (by simp [rateLimitMax]))
  unfold rlLimited rlStep
  simp only [hstate]
  constructor
  · intro hdec
    by_cases hge : rateLimitMax ≤ ((rlAccepted trace).filter (inWindow t)).length
    · omega
    · simp [hge] at hdec
  · intro heq
    simp [heq]

/-- C5 witness: 31 frames inside one window — the 31st is rejected, and
exactly 30 frames were accepted within the preceding 10 seconds. -/
theorem c5_rate_limit_iff_witness :
    (∀ x ∈ List.replicate 30 (0 : Int), x ≤ (0 : Int)) ∧
    (rlLimited (List.replicate 30 0) 0 = true ↔
      ((rlAccepted (List.replicate 30 0)).filter (inWindow 0)).length = rateLimitMax) :=
  ⟨by decide, c5_rate_limit_iff (List.replicate 30 0) 0 (by decide)⟩

/-! ## WebSocket fan-out substrate (ws-manager `broadcast` / `broadcastToChannel`)

The source keeps `clients : Map<number, {ws, workspaceId, userId, subscribedChannels}>`
and iterates it on every broadcast.  We model the map as an association list
(id, client) and each broadcast as the list of client ids the loop sends to
(a `ws.send` that throws only removes the client afterwards; the send was
still attempted, so the recipient computation is the loop's filter). -/

/-- One entry of the ws-manager's client map. -/
structure WsClient where
  workspaceId : String
  subscribedChannels : List String
deriving DecidableEq

/-- A server event as the broadcaster sees it: its `type` tag and the
`data.channel_id` field when the payload carries one. -/
structure WsEvent where
  type : String
  channelId : Option String
deriving DecidableEq

/-- The client map (`client_id → client`). -/
abbrev ClientMap := List (Nat × WsClient)

/-- `broadcast`'s first `continue`: skip when a workspace id was provided and
the client is in a different workspace. -/
def wsSkipWorkspace (workspaceId : Option String) (c : WsClient) : Bool :=
  match workspaceId with
  | some w => c.workspaceId ≠ w
  | none => false

/-- `broadcast`'s second `continue`: for `new_message` events with a
`channel_id`, skip clients with a non-empty subscription set that does not
contain the channel. -/
def wsSkipSubscription (event : WsEvent) (c : WsClient) : Bool :=
  if event.type = "new_message" then
    match event.channelId with
    | some ch => !c.subscribedChannels.isEmpty && !c.subscribedChannels.contains ch
    | none => false
  else false

/-- Whether `broadcast(event, workspaceId)` sends to a given client. -/
def wsSends (event : WsEvent) (workspaceId : Option String) (c : WsClient) : Bool :=
  !wsSkipWorkspace workspaceId c && !wsSkipSubscription event c

/-- The client ids `broadcast(event, workspaceId)` sends the payload to. -/
def broadcastRecipients (clients : ClientMap) (event : WsEvent)
    (workspaceId : Option String) : List Nat :=
  (clients.filter (fun ic => wsSends event workspaceId ic.2)).map Prod.fst

/-- The client ids `broadcastToChannel(channelId, event, exclude)` sends to:
every non-excluded client whose subscription set contains the channel —
there is no workspace check on this path. -/
def broadcastToChannelRecipients (clients : ClientMap) (channelId : String)
    (excludeClientId : Option Nat) : List Nat :=
  (clients.filter (fun ic =>
    !(excludeClientId = some ic.1 : Bool) && ic.2.subscribedChannels.contains channelId)).map
    Prod.fst

/-- In a map with distinct keys, a key determines its value. -/
theorem value_eq_of_nodup_keys {α β : Type} {l : List (α × β)}
    (h : (l.map Prod.fst).Nodup) {i : α} {b b' : β}
    (h1 : (i, b) ∈ l) (h2 : (i, b') ∈ l) : b = b' := by
  induction l with
  | nil => cases h1
  | cons p rest ih =>
    simp only [List.map_cons, List.nodup_cons] at h
    rcases List.mem_cons.mp h1 with heq1 | h1'
    · rcases List.mem_cons.mp h2 with heq2 | h2'
      · rw [← heq1] at heq2; exact congrArg Prod.snd heq2.symm
      · exact absurd (List.mem_map_of_mem Prod.fst h2') (by rw [← heq1] at h; simpa using h.1)
    · rcases List.mem_cons.mp h2 with heq2 | h2'
      · exact absurd (List.mem_map_of_mem Prod.fst h1') (by rw [← heq2] at h; simpa using h.1)
      · exact ih h.2 h1' h2'

/-- C3 counterexample: channel `c1`'s row lives in workspace `W1`, yet the
client with id 1 — whose connection was resolved to workspace `W2` — is a
recipient of `broadcastToChannel("c1", event)`, because the channel-targeted
broadcast path never consults workspaces. -/
theorem c3_cross_workspace_leak :
    1 ∈ broadcastToChannelRecipients [(1, ⟨"W2", ["c1"]⟩)] "c1" none ∧
      (WsClient.mk "W2" ["c1"]).workspaceId ≠ "W1" := by
  constructor
  · decide
  · decide

/-- C3 amended: workspace isolation holds only on the `broadcast()` path when
the caller passes the source row's workspace — every recipient of
`broadcast(event, W)` is a client of workspace `W`.  `broadcastToChannel()`
and the subscription sets themselves enforce no workspace check, so a client
subscribed to a foreign channel id does receive its channel-targeted events. -/
theorem c3_broadcast_workspace_scoped (clients : ClientMap) (event : WsEvent)
    (w : String) (i : Nat) (hi : i ∈ broadcastRecipients clients event (some w)) :
    ∃ c : WsClient, (i, c) ∈ clients ∧ c.workspaceId = w := by
  rcases List.mem_map.mp hi with ⟨⟨j, c⟩, hmem, hfst⟩
  rcases List.mem_filter.mp hmem with ⟨hin, hcond⟩
  refine ⟨c, by simpa [← hfst] using hin, ?_⟩
  simp only [wsSends, Bool.and_eq_true, Bool.not_eq_true'] at hcond
  have := hcond.1
  simpa [wsSkipWorkspace, decide_eq_false_iff_not] using this

/-- C3 witness: a concrete `broadcast` with workspace `"W1"` whose sole
recipient is indeed a `"W1"` client. -/
theorem c3_broadcast_workspace_scoped_witness :
    1 ∈ broadcastRecipients [(1, ⟨"W1", []⟩)] ⟨"agent_status", none⟩ (some "W1") ∧
      ∃ c : WsClient, (1, c) ∈ [((1 : Nat), WsClient.mk "W1" [])] ∧ c.workspaceId = "W1" :=
  ⟨by decide,
    c3_broadcast_workspace_scoped [(1, ⟨"W1", []⟩)] ⟨"agent_status", none⟩ "W1" 1 (by decide)⟩

/-- C4: for a `new_message` event broadcast with workspace `w`, a connected
client of `w` receives the event iff its subscription set is empty or
contains the event's channel. -/
theorem c4_new_message_delivery (clients : ClientMap) (event : WsEvent)
    (w ch : String) (hty : event.type = "new_message")
    (hch : event.channelId = some ch)
    (hnodup : (clients.map Prod.fst).Nodup)
    (i : Nat) (c : WsClient) (hmem : (i, c) ∈ clients) (hw : c.workspaceId = w) :
    i ∈ broadcastRecipients clients event (some w) ↔
      (c.subscribedChannels = [] ∨ ch ∈ c.subscribedChannels) := by
  have hsends : wsSends event (some w) c = true ↔
      (c.subscribedChannels = [] ∨ ch ∈ c.subscribedChannels) := by
    simp only [wsSends, wsSkipWorkspace, wsSkipSubscription, hty, hch, if_pos rfl,
      Bool.and_eq_true, Bool.not_eq_true']
    constructor
    · rintro ⟨-, hsub⟩
      rcases Bool.and_eq_false_iff.mp hsub with hempty | hcont
      · left
        simpa [List.isEmpty_iff] using hempty
      · right
        simpa using hcont
    · intro hsub
      refine ⟨by simp [hw], ?_⟩
      rcases hsub with hempty | hcont
      · simp [hempty]
      · simp [hcont]
  constructor
  · intro hi
    rcases List.mem_map.mp hi with ⟨⟨j, c'⟩, hmem', hfst⟩
    rcases List.mem_filter.mp hmem' with ⟨hin, hcond⟩
    have hj : j = i := hfst
    subst hj
    have hcc : c' = c := value_eq_of_nodup_keys hnodup hin hmem
    subst hcc
    exact hsends.mp hcond
  · intro hsub
    exact List.mem_map.mpr ⟨(i, c), List.mem_filter.mpr ⟨hmem, hsends.mpr hsub⟩, rfl⟩

/-- C4 witness: two clients of workspace `"W1"` — one with an empty
subscription set (receives) and the theorem applied to it. -/
theorem c4_new_message_delivery_witness :
    ((1 : Nat) ∈ broadcastRecipients
        [(1, ⟨"W1", []⟩), (2, ⟨"W1", ["other"]⟩)] ⟨"new_message", some "c9"⟩ (some "W1") ↔
      ((WsClient.mk "W1" []).subscribedChannels = [] ∨
        "c9" ∈ (WsClient.mk "W1" []).subscribedChannels)) :=
  c4_new_message_delivery [(1, ⟨"W1", []⟩), (2, ⟨"W1", ["other"]⟩)]
    ⟨"new_message", some "c9"⟩ "W1" "c9" rfl rfl (by decide) 1 ⟨"W1", []⟩ (by decide) rfl

/-! ## Data model

Row types for the SQLite tables the claims touch.  Timestamps are ISO-8601
strings in the store, compared lexicographically by SQL `<` and `ORDER BY`;
lexicographic order on ISO strings is chronological order, so we model them
as `Nat`.  Nullable columns are `Option`s. -/

structure UserRow where
  id : String
  name : String
  type : String
  displayName : Option String := none
  about : Option String := none
  agentInstructions : Option String := none
  createdAt : Nat := 0
deriving DecidableEq

structure AgentRow where
  id : String
  agentName : String
  agentType : String
  serverUrl : Option String := none
  providerSessionId : Option String := none
  workspaceId : Option String := none
deriving DecidableEq

/-- `sessions` table (agent OS sessions, used by ghost detection). -/
structure SessionRow where
  id : String
  agentId : String
  pid : Nat
  isActive : Bool
  startedAt : Nat
deriving DecidableEq

structure ChannelRow where
  id : String
  name : String
  type : String := "general"
  workspaceId : Option String := none
deriving DecidableEq

structure MessageRow where
  id : String
  channelId : String
  senderId : String
  content : String
  mentions : Option (List String) := none
  createdAt : Nat
deriving DecidableEq

structure WorkspaceRow where
  id : String
  name : String
  slug : String
  type : String
  description : Option String := none
  createdBy : String
  createdAt : Nat
deriving DecidableEq

structure WorkspaceMemberRow where
  workspaceId : String
  userId : String
  role : String
  joinedAt : Nat
deriving DecidableEq

@[ext]
structure Db where
  users : List UserRow := []
  agents : List AgentRow := []
  sessions : List SessionRow := []
  channels : List ChannelRow := []
  messages : List MessageRow := []
  workspaces : List WorkspaceRow := []
  workspaceMembers : List WorkspaceMemberRow := []
deriving DecidableEq

/-- Stable insertion into a key-ascending list (models SQL `ORDER BY key ASC`). -/
def insertAsc {α : Type} (key : α → Nat) (x : α) : List α → List α
  | [] => [x]
  | y :: ys => if key x ≤ key y then x :: y :: ys else y :: insertAsc key x ys

/-- Sort ascending by a `Nat` key (models SQL `ORDER BY key ASC`). -/
def sortAsc {α : Type} (key : α → Nat) : List α → List α
  | [] => []
  | x :: xs => insertAsc key x (sortAsc key xs)

/-- Stable insertion into a key-descending list (models SQL `ORDER BY key DESC`). -/
def insertDesc {α : Type} (key : α → Nat) (x : α) : List α → List α
  | [] => [x]
  | y :: ys => if key y ≤ key x then x :: y :: ys else y :: insertDesc key x ys

/-- Sort descending by a `Nat` key (models SQL `ORDER BY key DESC`). -/
def sortDesc {α : Type} (key : α → Nat) : List α → List α
  | [] => []
  | x :: xs => insertDesc key x (sortDesc key xs)

/-! ## Liveness / ghost detector (`computeGhost`, `isPidAlive`)

`fetchOpencodeSessions` asks the external server for its session-id set and
returns the empty set when the server is unreachable; we model the external
world as a function `opencodeSessions : server_url → session-id list`
(empty list = unreachable server) and the OS as `isPidAlive : pid → Bool`.
The per-sweep cache only memoises `opencodeSessions` and does not change
its value, so it is dropped. -/

/-- `computeGhost` from the agents route: system agents are never ghosts;
agents with both invocation credentials are ghosts iff the provider session
id is missing from the server's session list; otherwise the code takes the
session row for the agent with the *smallest* `started_at`
(`orderBy(asc(sessions.startedAt)).limit(1)`, no `is_active` filter) and the
agent is a ghost iff there is no session row at all or that row's pid is
dead. -/
def computeGhost (opencodeSessions : String → List String) (isPidAlive : Nat → Bool)
    (sessionsTable : List SessionRow) (agent : AgentRow) : Bool :=
  if agent.agentType = "system" then false
  else
    match agent.serverUrl, agent.providerSessionId with
    | some url, some sid => !(opencodeSessions url).contains sid
    | _, _ =>
      let activeSession :=
        (sortAsc (fun s => s.startedAt)
          (sessionsTable.filter (fun s => s.agentId == agent.id))).head?
      match activeSession with
      | none => true
      | some s => !isPidAlive s.pid

/-- The ghost classification as claim C1 states it, for the no-credentials
case: ghost iff the agent has no active (`is_active = true`) session, or the
pid recorded in its most-recent session is not a live OS process. -/
def claimGhost (isPidAlive : Nat → Bool) (sessionsTable : List SessionRow)
    (agent : AgentRow) : Bool :=
  let agentSessions := sessionsTable.filter (fun s => s.agentId == agent.id)
  let mostRecent := (sortDesc (fun s => s.startedAt) agentSessions).head?
  !agentSessions.any (fun s => s.isActive) ||
    (match mostRecent with
     | none => true
     | some s => !isPidAlive s.pid)

/-- C1 divergence: agent `a1` (type `claude_code`, no invocation
credentials) has a single session row with `is_active = false` and a live
pid 7.  The claim classifies it as a ghost (no active session exists), but
`computeGhost` returns `false`: the query it runs has no `is_active` filter
— despite its own comment "check for active session with live PID" — and
orders by `started_at` ascending instead of taking the most-recent row. -/
theorem c1_ghost_code_bug :
    computeGhost (fun _ => []) (fun p => p == 7)
        [⟨"s1", "a1", 7, false, 1⟩]
        { id := "a1", agentName := "plucky-sparrow", agentType := "claude_code" } = false ∧
      claimGhost (fun p => p == 7)
        [⟨"s1", "a1", 7, false, 1⟩]
        { id := "a1", agentName := "plucky-sparrow", agentType := "claude_code" } = true := by
  constructor
  · rfl
  · rfl

/-! ## Message read path (`GET /channels/:channelId/messages`)

The route builds a Drizzle dynamic query with
`.where(eq(messages.channelId, channelId))` and, when a valid `before`
cursor is given, calls `.where(lt(messages.createdAt, before.createdAt))` on
the same builder.  In Drizzle's dynamic mode a second `.where()` call
*replaces* the stored clause (`this.config.where = where`), so the cursor
filter supplants the channel filter.  The embedding reproduces that. -/

/-- The GET messages handler: 404 when the channel does not exist; otherwise
the rows of the (single, last-written) `where` clause, inner-joined with
`users` on the sender, ordered by `created_at DESC`, limited. -/
def getChannelMessages (db : Db) (channelId : String) (before : Option String)
    (limit : Nat) : Except String (List MessageRow) :=
  match db.channels.find? (fun c => c.id == channelId) with
  | none => .error "Channel not found"
  | some _ =>
    let whereClause : MessageRow → Bool :=
      match before with
      | some b =>
        match db.messages.find? (fun m => m.id == b) with
        | some beforeMsg => fun m => m.createdAt < beforeMsg.createdAt
        | none => fun m => m.channelId == channelId
      | none => fun m => m.channelId == channelId
    .ok (((sortDesc (fun m => m.createdAt)
        ((db.messages.filter whereClause).filter
          (fun m => db.users.any (fun u => u.id == m.senderId))))).take limit)

/-- A concrete database for the C2 divergence: channels `a` and `b`, one
sender, message `m1` in `a` (created at 10) and `m2` in `b` (created at 5). -/
def c2Db : Db :=
  { users := [{ id := "u1", name := "boss", type := "human" }]
    channels := [⟨"a", "#general", "general", none⟩, ⟨"b", "#random", "general", none⟩]
    messages := [⟨"m1", "a", "u1", "hello", none, 10⟩, ⟨"m2", "b", "u1", "older", none, 5⟩] }

/-- C2 divergence: paginating channel `a` with `before = m1` returns `m2`,
a row of channel `b` — the valid cursor's `.where()` call replaced the
channel filter, leaking messages across channels (the behaviour the
repository's own cursor-scoping tests forbid). -/
theorem c2_cursor_leak :
    getChannelMessages c2Db "a" (some "m1") 100 =
        .ok [⟨"m2", "b", "u1", "older", none, 5⟩] ∧
      (MessageRow.channelId ⟨"m2", "b", "u1", "older", none, 5⟩ == "a") = false := by
  constructor
  · rfl
  · rfl

/-! ## Message write path (`POST /channels/:channelId/messages`)

After schema validation (the zod `MessageCreateSchema`, not part of the
handler itself), the handler looks up the channel, then resolves the sender
as the first user row of type `human` — it never consults the request's
auth principal — and only then inserts.  The `Db` is returned alongside the
response so that "no row inserted" is expressible. -/

/-- The POST message handler on a schema-valid body; errors carry the HTTP
status and the `detail` body. -/
def postChannelMessage (db : Db) (channelId : String) (content : String)
    (mentions : Option (List String)) (newId : String) (now : Nat) :
    Except (Nat × String) MessageRow × Db :=
  match db.channels.find? (fun c => c.id == channelId) with
  | none => (.error (404, "Channel not found"), db)
  | some _ =>
    match db.users.find? (fun u => u.type == "human") with
    | none => (.error (400, "No user onboarded"), db)
    | some human =>
      let msg : MessageRow :=
        { id := newId, channelId := channelId, senderId := human.id,
          content := content, mentions := mentions, createdAt := now }
      (.ok msg, { db with messages := db.messages ++ [msg] })

/-- C9: on an existing channel, if no human user exists the handler answers
400 with detail `No user onboarded` and leaves the database unchanged; otherwise the
stored message's `sender_id` is the human user's id — the authenticated
principal plays no part (it is not even an input of the handler). -/
theorem c9_post_message_sender (db : Db) (channelId content : String)
    (mentions : Option (List String)) (newId : String) (now : Nat)
    (hchan : (db.channels.find? (fun c => c.id == channelId)).isSome) :
    (db.users.find? (fun u => u.type == "human") = none →
      postChannelMessage db channelId content mentions newId now =
        (.error (400, "No user onboarded"), db)) ∧
    (∀ human, db.users.find? (fun u => u.type == "human") = some human →
      ∃ msg : MessageRow,
        postChannelMessage db channelId content mentions newId now =
          (.ok msg, { db with messages := db.messages ++ [msg] }) ∧
        msg.senderId = human.id) := by
  rcases hsome : db.channels.find? (fun c => c.id == channelId) with - | ch
  · rw [hsome] at hchan; cases hchan
  · constructor
    · intro hnone
      simp [postChannelMessage, hsome, hnone]
    · intro human hhuman
      refine ⟨{ id := newId, channelId := channelId, senderId := human.id,
                content := content, mentions := mentions, createdAt := now }, ?_, rfl⟩
      simp [postChannelMessage, hsome, hhuman]

/-- C9 witness: the no-human branch on a one-channel database, via the
theorem. -/
theorem c9_post_message_sender_witness :
    ((Db.mk [] [] [] [⟨"a", "#general", "general", none⟩] [] [] []).users.find?
        (fun u => u.type == "human") = none →
      postChannelMessage (Db.mk [] [] [] [⟨"a", "#general", "general", none⟩] [] [] [])
          "a" "hi" none "m1" 1 =
        (.error (400, "No user onboarded"),
          Db.mk [] [] [] [⟨"a", "#general", "general", none⟩] [] [] [])) ∧
    (∀ human,
      (Db.mk [] [] [] [⟨"a", "#general", "general", none⟩] [] [] []).users.find?
          (fun u => u.type == "human") = some human →
      ∃ msg : MessageRow,
        postChannelMessage (Db.mk [] [] [] [⟨"a", "#general", "general", none⟩] [] [] [])
            "a" "hi" none "m1" 1 =
          (.ok msg,
            { Db.mk [] [] [] [⟨"a", "#general", "general", none⟩] [] [] [] with
              messages :=
                (Db.mk [] [] [] [⟨"a", "#general", "general", none⟩] [] [] []).messages
                  ++ [msg] }) ∧
        msg.senderId = human.id) :=
  c9_post_message_sender (Db.mk [] [] [] [⟨"a", "#general", "general", none⟩] [] [] [])
    "a" "hi" none "m1" 1 (by decide)

/-! ## Onboarding (`POST /users/onboard`)

On a schema-valid body: if a human user already exists the handler updates
that row in place and returns 201; otherwise it inserts a fresh human user,
has `the_creator` post a welcome into `#general` (messages only), and
returns 201. -/

/-- The creator agent's fixed name (`CREATOR_NAME`). -/
def creatorName : String := "the_creator"

/-- Parsed `UserOnboardSchema` body. -/
structure OnboardBody where
  name : String
  displayName : Option String := none
  about : Option String := none
  agentInstructions : Option String := none

/-- `postCreatorWelcome`: when both `the_creator` and `#general` exist,
insert the welcome message authored by the creator; otherwise do nothing.
Only the `messages` table is touched. -/
def postCreatorWelcome (db : Db) (displayName : String) (about : Option String)
    (msgId : String) (now : Nat) : Db :=
  match db.users.find? (fun u => u.name == creatorName) with
  | none => db
  | some creator =>
    match db.channels.find? (fun c => c.name == "#general") with
    | none => db
    | some general =>
      let aboutLine :=
        match about with
        | some a => " They say: *\"" ++ a.take 200 ++ "\"*"
        | none => ""
      let content :=
        "Everyone, meet **" ++ displayName ++ "** — " ++
        "they're running the show around here." ++ aboutLine ++ "\n\n" ++
        "Be cool. Be yourself. Make a good impression."
      { db with
        messages := db.messages ++
          [{ id := msgId, channelId := general.id, senderId := creator.id,
             content := content, createdAt := now }] }

/-- The onboarding handler: `(status, returned user) × new state`. -/
def onboardUser (db : Db) (body : OnboardBody) (newUserId welcomeMsgId : String)
    (now : Nat) : (Nat × Option UserRow) × Db :=
  match db.users.find? (fun u => u.type == "human") with
  | some existing =>
    let patch := fun (u : UserRow) =>
      if u.id == existing.id then
        { u with name := body.name, displayName := body.displayName,
                 about := body.about, agentInstructions := body.agentInstructions }
      else u
    let db' := { db with users := db.users.map patch }
    ((201, db'.users.find? (fun u => u.id == existing.id)), db')
  | none =>
    let newUser : UserRow :=
      { id := newUserId, name := body.name, type := "human",
        displayName := body.displayName, about := body.about,
        agentInstructions := body.agentInstructions, createdAt := now }
    let db1 := { db with users := db.users ++ [newUser] }
    let db2 := postCreatorWelcome db1 (body.displayName.getD body.name) body.about
        welcomeMsgId now
    ((201, db2.users.find? (fun u => u.id == newUserId)), db2)

/-- Number of rows of type `human` in the users table. -/
def humanCount (db : Db) : Nat := db.users.countP (fun u => u.type == "human")

theorem postCreatorWelcome_users (db : Db) (d : String) (a : Option String)
    (i : String) (n : Nat) : (postCreatorWelcome db d a i n).users = db.users := by
  unfold postCreatorWelcome
  cases hc : db.users.find? (fun u => u.name == creatorName) with
  | none => rfl
  | some creator =>
    cases hg : db.channels.find? (fun c => c.name == "#general") with
    | none => rfl
    | some general => rfl

/-- C10: onboarding always answers 201; the human-user count afterwards is
`max (count before) 1` — a human is created only when none exists, so
repeated onboarding never pushes the count past one — and when a human
already exists no user row is created or removed and every row keeps its
id (the existing row is updated in place). -/
theorem c10_onboard_single_human (db : Db) (body : OnboardBody)
    (newUserId welcomeMsgId : String) (now : Nat) :
    (onboardUser db body newUserId welcomeMsgId now).1.1 = 201 ∧
    humanCount (onboardUser db body newUserId welcomeMsgId now).2 =
      max (humanCount db) 1 ∧
    (∀ h, db.users.find? (fun u => u.type == "human") = some h →
      ((onboardUser db body newUserId welcomeMsgId now).2.users.map (fun u => u.id)) =
        db.users.map (fun u => u.id)) := by
  rcases hfind : db.users.find? (fun u => u.type == "human") with - | existing
  · have hzero : humanCount db = 0 := by
      have := List.find?_eq_none.mp hfind
      simpa [humanCount, List.countP_eq_zero] using this
    refine ⟨by simp [onboardUser, hfind], ?_, ?_⟩
    · unfold onboardUser
      rw [hfind]
      simp only [humanCount, postCreatorWelcome_users]
      rw [List.countP_append]
      simp only [humanCount] at hzero
      simp [hzero]
    · intro h hcontra
      rw [hfind] at hcontra; cases hcontra
  · have hmem := List.mem_of_find?_eq_some hfind
    have hhuman := List.find?_some hfind
    have hpos : 0 < humanCount db := by
      simp only [humanCount]
      exact List.countP_pos_iff.mpr ⟨existing, hmem, hhuman⟩
    refine ⟨by simp [onboardUser, hfind], ?_, ?_⟩
    · unfold onboardUser
      rw [hfind]
      simp only [humanCount, List.countP_map]
      have hcong : ∀ u ∈ db.users,
          (((fun u : UserRow => u.type == "human") ∘ fun u : UserRow =>
            if u.id == existing.id then
              { u with name := body.name, displayName := body.displayName,
                       about := body.about,
                       agentInstructions := body.agentInstructions }
            else u) u = true ↔ (fun u : UserRow => u.type == "human") u = true) := by
        intro u _
        simp only [Function.comp_apply]
        split <;> simp
      rw [List.countP_congr hcong]
      have : humanCount db = db.users.countP fun u => u.type == "human" := rfl
      omega
    · intro h hh
      unfold onboardUser
      rw [hfind]
      simp only [List.map_map]
      refine List.map_congr_left ?_
      intro u _
      simp only [Function.comp_apply]
      split <;> rfl

/-- C10 witness: re-onboarding a database that already holds one human. -/
theorem c10_onboard_single_human_witness :
    (onboardUser (Db.mk [{ id := "u1", name := "old", type := "human" }] [] [] [] [] [] [])
        ⟨"new", none, none, none⟩ "u2" "w1" 5).1.1 = 201 ∧
    humanCount (onboardUser
        (Db.mk [{ id := "u1", name := "old", type := "human" }] [] [] [] [] [] [])
        ⟨"new", none, none, none⟩ "u2" "w1" 5).2 =
      max (humanCount (Db.mk [{ id := "u1", name := "old", type := "human" }] [] [] [] [] [] [])) 1 ∧
    (∀ h, (Db.mk [{ id := "u1", name := "old", type := "human" }] [] [] [] [] [] []).users.find?
        (fun u => u.type == "human") = some h →
      ((onboardUser (Db.mk [{ id := "u1", name := "old", type := "human" }] [] [] [] [] [] [])
          ⟨"new", none, none, none⟩ "u2" "w1" 5).2.users.map (fun u => u.id)) =
        (Db.mk [{ id := "u1", name := "old", type := "human" }] [] [] [] [] [] []).users.map
          (fun u => u.id)) :=
  c10_onboard_single_human
    (Db.mk [{ id := "u1", name := "old", type := "human" }] [] [] [] [] [] [])
    ⟨"new", none, none, none⟩ "u2" "w1" 5

/-! ## Workspace migrations (`runMigrations`, `ensureDefaultWorkspace`)

`runMigrations` adds the `workspace_id` / `email` / `avatar_url` columns when
missing — in this model every row type already carries those columns as
`Option`s (a pre-workspace store is one whose rows hold `none`), so the
guarded `ALTER TABLE ADD COLUMN` steps are identities — and then calls
`ensureDefaultWorkspace`: `INSERT OR IGNORE` of the all-zero workspace
(ignored on a conflict with any of the unique columns `id`, `name`, `slug`),
then `UPDATE channels/agents SET workspace_id = default WHERE workspace_id
IS NULL`.  No statement of the migrator touches `workspace_members`. -/

/-- `DEFAULT_WORKSPACE_ID`. -/
def defaultWorkspaceId : String := "00000000-0000-0000-0000-000000000000"

/-- `DEFAULT_WORKSPACE_SLUG`. -/
def defaultWorkspaceSlug : String := "default"

/-- The backfill applied to each channel row. -/
def backfillChannel (c : ChannelRow) : ChannelRow :=
  if c.workspaceId = none then { c with workspaceId := some defaultWorkspaceId } else c

/-- The backfill applied to each agent row. -/
def backfillAgent (a : AgentRow) : AgentRow :=
  if a.workspaceId = none then { a with workspaceId := some defaultWorkspaceId } else a

/-- `INSERT OR IGNORE` of the default workspace row. -/
def insertDefaultWorkspace (now : Nat) (db : Db) : Db :=
  if db.workspaces.any (fun w =>
      w.id == defaultWorkspaceId || w.name == "Default" || w.slug == defaultWorkspaceSlug)
  then db
  else
    { db with workspaces := db.workspaces ++
        [{ id := defaultWorkspaceId, name := "Default", slug := defaultWorkspaceSlug,
           type := "personal", description := some "Auto-created default workspace",
           createdBy := "system", createdAt := now }] }

/-- `ensureDefaultWorkspace`: insert-or-ignore the default workspace, then
backfill `workspace_id` on channels and agents. -/
def ensureDefaultWorkspace (now : Nat) (db : Db) : Db :=
  let db1 := insertDefaultWorkspace now db
  { db1 with
    channels := db1.channels.map backfillChannel,
    agents := db1.agents.map backfillAgent }

/-- `runMigrations`: the guarded column additions (identities here) followed
by `ensureDefaultWorkspace`. -/
def runMigrations (now : Nat) (db : Db) : Db := ensureDefaultWorkspace now db

/-- A pre-workspace store with one human user, one channel and one agent,
and no workspace members. -/
def c6Db : Db :=
  { users := [{ id := "u1", name := "boss", type := "human" }]
    channels := [⟨"c1", "#general", "general", none⟩]
    agents := [{ id := "a1", agentName := "plucky-sparrow", agentType := "claude_code" }] }

/-- C6 counterexample: migrating a pre-workspace store with a lone human
creates the default workspace and backfills the rows, but leaves
`workspace_members` empty — the human is *not* made an admin member of the
default workspace, falsifying that conjunct of the claim. -/
theorem c6_no_admin_member :
    (runMigrations 0 c6Db).workspaceMembers = [] ∧
      (c6Db.users.filter (fun u => u.type == "human")).map (fun u => u.id) = ["u1"] ∧
      (runMigrations 0 c6Db).workspaces.any (fun w => w.id == defaultWorkspaceId) = true := by
  refine ⟨rfl, rfl, rfl⟩

theorem insertDefaultWorkspace_channels (now : Nat) (db : Db) :
    (insertDefaultWorkspace now db).channels = db.channels := by
  unfold insertDefaultWorkspace; split <;> rfl

theorem insertDefaultWorkspace_agents (now : Nat) (db : Db) :
    (insertDefaultWorkspace now db).agents = db.agents := by
  unfold insertDefaultWorkspace; split <;> rfl

/-- C6 amended: running the migrations against a store that predates
workspaces (no workspace rows; every channel and agent row has a null
`workspace_id`) creates the default all-zero workspace, sets `workspace_id`
to the default workspace on every pre-existing channel and agent row, and
is idempotent — but it does not add the human user as a workspace member
(the migrator never writes `workspace_members`). -/
theorem c6_migrations_amended (db : Db) (now now2 : Nat)
    (hch : ∀ c ∈ db.channels, c.workspaceId = none)
    (hag : ∀ a ∈ db.agents, a.workspaceId = none)
    (hws : db.workspaces = []) :
    ((runMigrations now db).workspaces.any (fun w => w.id == defaultWorkspaceId)) = true ∧
    (∀ c ∈ (runMigrations now db).channels, c.workspaceId = some defaultWorkspaceId) ∧
    (∀ a ∈ (runMigrations now db).agents, a.workspaceId = some defaultWorkspaceId) ∧
    (runMigrations now db).workspaceMembers = db.workspaceMembers ∧
    runMigrations now2 (runMigrations now db) = runMigrations now db := by
  have hins : insertDefaultWorkspace now db =
      { db with workspaces := db.workspaces ++
          [{ id := defaultWorkspaceId, name := "Default", slug := defaultWorkspaceSlug,
             type := "personal", description := some "Auto-created default workspace",
             createdBy := "system", createdAt := now }] } := by
    unfold insertDefaultWorkspace
    rw [if_neg]
    rw [hws]
    simp
  have hwsmem : (runMigrations now db).workspaces.any
      (fun w => w.id == defaultWorkspaceId) = true := by
    unfold runMigrations ensureDefaultWorkspace
    rw [hins, hws]
    simp [defaultWorkspaceId]
  have hchans : ∀ c ∈ (runMigrations now db).channels,
      c.workspaceId = some defaultWorkspaceId := by
    intro c hc
    unfold runMigrations ensureDefaultWorkspace at hc
    simp only [insertDefaultWorkspace_channels, List.mem_map] at hc
    obtain ⟨c0, hc0, rfl⟩ := hc
    rw [backfillChannel, if_pos (hch c0 hc0)]
  have hagents : ∀ a ∈ (runMigrations now db).agents,
      a.workspaceId = some defaultWorkspaceId := by
    intro a ha
    unfold runMigrations ensureDefaultWorkspace at ha
    simp only [insertDefaultWorkspace_agents, List.mem_map] at ha
    obtain ⟨a0, ha0, rfl⟩ := ha
    rw [backfillAgent, if_pos (hag a0 ha0)]
  refine ⟨hwsmem, hchans, hagents, ?_, ?_⟩
  · unfold runMigrations ensureDefaultWorkspace
    rw [hins]
  · have hins2 : insertDefaultWorkspace now2 (runMigrations now db) =
        runMigrations now db := by
      unfold insertDefaultWorkspace
      rw [if_pos]
      have := hwsmem
      rcases List.any_eq_true.mp this with ⟨w, hwmem, hwid⟩
      exact List.any_eq_true.mpr ⟨w, hwmem, by simp_all⟩
    show ensureDefaultWorkspace now2 (runMigrations now db) = runMigrations now db
    unfold ensureDefaultWorkspace
    rw [hins2]
    have hmapc : (runMigrations now db).channels.map backfillChannel =
        (runMigrations now db).channels := by
      refine List.map_congr_left ?_ |>.trans (List.map_id _)
      intro c hc
      have hne : ¬ c.workspaceId = none := by rw [hchans c hc]; simp
      rw [backfillChannel, if_neg hne]
      rfl
    have hmapa : (runMigrations now db).agents.map backfillAgent =
        (runMigrations now db).agents := by
      refine List.map_congr_left ?_ |>.trans (List.map_id _)
      intro a ha
      have hne : ¬ a.workspaceId = none := by rw [hagents a ha]; simp
      rw [backfillAgent, if_neg hne]
      rfl
    simp only [hmapc, hmapa]

/-- C6 amended witness: the pre-workspace store `c6Db` through the amended
theorem. -/
theorem c6_migrations_amended_witness :
    ((runMigrations 3 c6Db).workspaces.any (fun w => w.id == defaultWorkspaceId)) = true ∧
    (∀ c ∈ (runMigrations 3 c6Db).channels, c.workspaceId = some defaultWorkspaceId) ∧
    (∀ a ∈ (runMigrations 3 c6Db).agents, a.workspaceId = some defaultWorkspaceId) ∧
    (runMigrations 3 c6Db).workspaceMembers = c6Db.workspaceMembers ∧
    runMigrations 7 (runMigrations 3 c6Db) = runMigrations 3 c6Db :=
  c6_migrations_amended c6Db 3 7 (by decide) (by decide) rfl

/-! ## Search (`GET /api/search`)

Modelled from the spec: the search handler itself is not among the source
files (only its tests are).  Per the spec it "must apply text filter AND
channel filter simultaneously and must escape the characters `%` and `_` in
the user query before embedding in a `LIKE`-style pattern (treat them as
literals)".  So: the query is escaped, wrapped in `%...%`, matched by a
LIKE-style matcher (`%` = any sequence, `_` = any one character, `\\`
escapes the next pattern character, characters compared for equality), and
both filters are applied to the same row set. -/

/-- A lexed LIKE-pattern element: `%`, `_`, or a literal character. -/
inductive LikeTok where
  | any : LikeTok
  | one : LikeTok
  | lit : Char → LikeTok
deriving DecidableEq

/-- Modelled from the spec: lex a LIKE pattern with `\\` as escape
character into its elements. -/
def lexLike : List Char → List LikeTok
  | [] => []
  | c :: p =>
    if c = '\\' then
      match p with
      | [] => [.lit c]
      | c2 :: p' => .lit c2 :: lexLike p'
    else if c = '%' then .any :: lexLike p
    else if c = '_' then .one :: lexLike p
    else .lit c :: lexLike p

/-- Try a predicate on every suffix of the string (the search a `%` element
performs for the rest of the pattern). -/
def likeSuffix (f : List Char → Bool) : List Char → Bool
  | [] => f []
  | d :: s' => f (d :: s') || likeSuffix f s'

/-- Modelled from the spec: match a lexed LIKE pattern against a string. -/
def likeMatchTok : List LikeTok → List Char → Bool
  | [], [] => true
  | [], _ :: _ => false
  | .any :: p, s => likeSuffix (likeMatchTok p) s
  | .one :: _, [] => false
  | .one :: p, _ :: s' => likeMatchTok p s'
  | .lit _ :: _, [] => false
  | .lit c :: p, d :: s' => c == d && likeMatchTok p s'

/-- Modelled from the spec: a LIKE-style pattern matcher over character
lists with `\\` as the escape character. -/
def likeMatch (p s : List Char) : Bool := likeMatchTok (lexLike p) s

/-- Modelled from the spec: escape `%`, `_` (and the escape character
itself) in the user query so they match literally. -/
def escapeLike (t : List Char) : List Char :=
  t.flatMap (fun c => if c = '%' ∨ c = '_' ∨ c = '\\' then ['\\', c] else [c])

/-- Modelled from the spec: the LIKE pattern built from the query. -/
def searchPattern (t : List Char) : List Char :=
  '%' :: (escapeLike t ++ ['%'])

/-- Modelled from the spec: `GET /api/search?q=...&channel=...` filters the
message rows by the escaped-query LIKE pattern on `content` and, when a
channel name is given, simultaneously by the channel of the row. -/
def searchMessages (db : Db) (q : List Char) (channel : Option String) :
    List MessageRow :=
  db.messages.filter (fun m =>
    likeMatch (searchPattern q) m.content.toList &&
      (match channel with
       | some cname => db.channels.any (fun c => c.id == m.channelId && c.name == cname)
       | none => true))

example : likeMatch "% b%".toList "a b c".toList = true := by decide
example : likeMatch "%x%".toList "a b c".toList = false := by decide
example : likeMatch "%a_c%".toList "abc".toList = true := by decide
example : likeMatch (searchPattern "a_b".toList) "axb".toList = false := by decide
example : likeMatch (searchPattern "a_b".toList) "a_b".toList = true := by decide
example : likeMatch (searchPattern "%".toList) "no wildcards".toList = false := by decide
example : likeMatch (searchPattern "%".toList) "a % sign".toList = true := by decide

/-- Escaping the query and lexing the result yields the query's characters
as literals. -/
theorem lexLike_escapeLike_append :
    ∀ t rest : List Char, lexLike (escapeLike t ++ rest) =
      t.map LikeTok.lit ++ lexLike rest
  | [], rest => by simp [escapeLike]
  | c :: t, rest => by
    have ih := lexLike_escapeLike_append t rest
    by_cases hc : c = '%' ∨ c = '_' ∨ c = '\\'
    · have hesc : escapeLike (c :: t) ++ rest =
          '\\' :: c :: (escapeLike t ++ rest) := by
        simp [escapeLike, hc]
      rw [hesc, lexLike.eq_def]
      simp [ih]
    · have hesc : escapeLike (c :: t) ++ rest = c :: (escapeLike t ++ rest) := by
        simp [escapeLike, hc]
      push_neg at hc
      obtain ⟨hp, hu, hb⟩ := hc
      rw [hesc, lexLike.eq_def]
      simp [hp, hu, hb, ih]

/-- `likeSuffix f s` succeeds iff `f` accepts some suffix of `s`. -/
theorem likeSuffix_iff (f : List Char → Bool) :
    ∀ s : List Char, likeSuffix f s = true ↔
      ∃ s₁ s₂ : List Char, s = s₁ ++ s₂ ∧ f s₂ = true
  | [] => by
    simp only [likeSuffix]
    constructor
    · intro h; exact ⟨[], [], rfl, h⟩
    · rintro ⟨s₁, s₂, hs, hf⟩
      rcases List.append_eq_nil.mp hs.symm with ⟨rfl, rfl⟩
      exact hf
  | d :: s' => by
    have ih := likeSuffix_iff f s'
    simp only [likeSuffix, Bool.or_eq_true]
    constructor
    · rintro (h | h)
      · exact ⟨[], d :: s', rfl, h⟩
      · rcases ih.mp h with ⟨s₁, s₂, hs, hf⟩
        exact ⟨d :: s₁, s₂, by simp [hs], hf⟩
    · rintro ⟨s₁, s₂, hs, hf⟩
      cases s₁ with
      | nil =>
        refine Or.inl ?_
        have hs2 : s₂ = d :: s' := by simpa using hs.symm
        rwa [hs2] at hf
      | cons e s₁' =>
        rw [List.cons_append] at hs
        injection hs with h1 h2
        exact Or.inr (ih.mpr ⟨s₁', s₂, h2, hf⟩)

/-- A literal token run followed by `%` matches exactly the strings having
that run as a prefix. -/
theorem likeMatchTok_lit_any :
    ∀ t s : List Char,
      likeMatchTok (t.map LikeTok.lit ++ [.any]) s = true ↔ ∃ s', s = t ++ s'
  | [], s => by
    simp only [List.map_nil, List.nil_append, likeMatchTok]
    rw [likeSuffix_iff]
    constructor
    · intro _; exact ⟨s, rfl⟩
    · intro _
      refine ⟨s, [], by simp, rfl⟩
  | c :: t, s => by
    cases s with
    | nil =>
      simp only [List.map_cons, List.cons_append, likeMatchTok]
      constructor
      · intro h; exact absurd h (by simp)
      · rintro ⟨s', hs'⟩; cases hs'
    | cons d s' =>
      have ih := likeMatchTok_lit_any t s'
      simp only [List.map_cons, List.cons_append, likeMatchTok, Bool.and_eq_true]
      constructor
      · rintro ⟨hcd, hrest⟩
        rcases ih.mp hrest with ⟨s'', hs''⟩
        exact ⟨s'', by simp [hs'', eq_of_beq hcd]⟩
      · rintro ⟨s'', hs''⟩
        have hs2 : d :: s' = c :: (t ++ s'') := by simpa using hs''
        injection hs2 with h1 h2
        exact ⟨by simp [h1], ih.mpr ⟨s'', h2⟩⟩

/-- The full search pattern `%<escaped query>%` matches a string iff the
query is a literal substring of it. -/
theorem likeMatch_searchPattern (t s : List Char) :
    likeMatch (searchPattern t) s = true ↔ t <:+: s := by
  have hpercent : ∀ x : List Char, lexLike ('%' :: x) = .any :: lexLike x := by
    intro x
    rw [lexLike.eq_def]
    simp
  have hlex : lexLike (searchPattern t) = .any :: (t.map LikeTok.lit ++ [.any]) := by
    rw [searchPattern, hpercent, lexLike_escapeLike_append t ['%'], hpercent]
    rfl
  rw [likeMatch, hlex, show likeMatchTok (.any :: (t.map LikeTok.lit ++ [.any])) s =
        likeSuffix (likeMatchTok (t.map LikeTok.lit ++ [.any])) s from rfl,
      likeSuffix_iff]
  constructor
  · rintro ⟨s₁, s₂, hs, hm⟩
    rcases (likeMatchTok_lit_any t s₂).mp hm with ⟨s₃, hs₃⟩
    exact ⟨s₁, s₃, by simp [hs, hs₃]⟩
  · rintro ⟨u, v, huv⟩
    exact ⟨u, t ++ v, by simp [← huv],
      (likeMatchTok_lit_any t (t ++ v)).mpr ⟨v, rfl⟩⟩

/-- C7: `GET /api/search?q=T&channel=C` returns exactly the message rows
whose content contains `T` as a literal substring and whose channel is the
channel named `C`; `%` and `_` in `T` only match themselves. -/
theorem c7_search_exact (db : Db) (q : List Char) (cname : String) (m : MessageRow) :
    m ∈ searchMessages db q (some cname) ↔
      m ∈ db.messages ∧ q <:+: m.content.toList ∧
        db.channels.any (fun c => c.id == m.channelId && c.name == cname) = true := by
  unfold searchMessages
  rw [List.mem_filter]
  constructor
  · rintro ⟨hmem, hcond⟩
    rcases Bool.and_eq_true_iff.mp hcond with ⟨htext, hchan⟩
    exact ⟨hmem, (likeMatch_searchPattern q _).mp htext, hchan⟩
  · rintro ⟨hmem, htext, hchan⟩
    exact ⟨hmem,
      Bool.and_eq_true_iff.mpr ⟨(likeMatch_searchPattern q _).mpr htext, hchan⟩⟩


/-! ## Agent name generator (`generateName`)

`generateName(seed)` hashes the seed with SHA-256 (Node's
`createHash("sha256").update(seed)` — UTF-8 bytes of the seed), derives an
adjective index from bytes 0–1 and an animal index from bytes 2–3
(`(hash[i] << 8 | hash[i+1]) % wordlist.length`), and joins the two words
with a dash.  SHA-256 is implemented below over byte lists, words as `Nat`
mod 2^32. -/

/-- 2^32. -/
def wordMod : Nat := 4294967296

/-- 2^32 − 1, the 32-bit mask. -/
def wordMask : Nat := 4294967295

/-- 32-bit rotate right. -/
def rotr (n x : Nat) : Nat := ((x >>> n) ||| (x <<< (32 - n))) &&& wordMask

def bsig0 (x : Nat) : Nat := rotr 2 x ^^^ rotr 13 x ^^^ rotr 22 x

def bsig1 (x : Nat) : Nat := rotr 6 x ^^^ rotr 11 x ^^^ rotr 25 x

def ssig0 (x : Nat) : Nat := rotr 7 x ^^^ rotr 18 x ^^^ (x >>> 3)

def ssig1 (x : Nat) : Nat := rotr 17 x ^^^ rotr 19 x ^^^ (x >>> 10)

def ch (x y z : Nat) : Nat := (x &&& y) ^^^ ((x ^^^ wordMask) &&& z)

def maj (x y z : Nat) : Nat := (x &&& y) ^^^ (x &&& z) ^^^ (y &&& z)

/-- The SHA-256 round constants. -/
def sha256K : List Nat :=
  [1116352408, 1899447441, 3049323471, 3921009573, 961987163,
   1508970993, 2453635748, 2870763221, 3624381080, 310598401,
   607225278, 1426881987, 1925078388, 2162078206, 2614888103,
   3248222580, 3835390401, 4022224774, 264347078, 604807628,
   770255983, 1249150122, 1555081692, 1996064986, 2554220882,
   2821834349, 2952996808, 3210313671, 3336571891, 3584528711,
   113926993, 338241895, 666307205, 773529912, 1294757372,
   1396182291, 1695183700, 1986661051, 2177026350, 2456956037,
   2730485921, 2820302411, 3259730800, 3345764771, 3516065817,
   3600352804, 4094571909, 275423344, 430227734, 506948616,
   659060556, 883997877, 958139571, 1322822218, 1537002063,
   1747873779, 1955562222, 2024104815, 2227730452, 2361852424,
   2428436474, 2756734187, 3204031479, 3329325298]

/-- The SHA-256 initial hash value. -/
def sha256H0 : List Nat :=
  [1779033703, 3144134277, 1013904242, 2773480762,
   1359893119, 2600822924, 528734635, 1541459225]

/-- SHA-256 padding: `0x80`, zeros to 56 mod 64, then the 64-bit big-endian
bit length. -/
def padMessage (m : List Nat) : List Nat :=
  let bitLen := m.length * 8
  let z := (119 - m.length % 64) % 64
  m ++ [128] ++ List.replicate z 0 ++
    [(bitLen >>> 56) &&& 255, (bitLen >>> 48) &&& 255, (bitLen >>> 40) &&& 255,
     (bitLen >>> 32) &&& 255, (bitLen >>> 24) &&& 255, (bitLen >>> 16) &&& 255,
     (bitLen >>> 8) &&& 255, bitLen &&& 255]

/-- Split into 64-byte blocks (the fuel argument — any bound on the number
of bytes — keeps the recursion structural). -/
def toBlocks : Nat → List Nat → List (List Nat)
  | 0, _ => []
  | _ + 1, [] => []
  | fuel + 1, bs => bs.take 64 :: toBlocks fuel (bs.drop 64)

/-- Big-endian 32-bit words from bytes. -/
def toWords : List Nat → List Nat
  | b0 :: b1 :: b2 :: b3 :: rest =>
      (((b0 * 256 + b1) * 256 + b2) * 256 + b3) :: toWords rest
  | _ => []

/-- Extend the 16-word block to the 64-word message schedule. -/
def buildSchedule : Nat → List Nat → List Nat
  | 0, w => w
  | f + 1, w =>
    let t := w.length
    let wt := (ssig1 (w.getD (t - 2) 0) + w.getD (t - 7) 0 +
               ssig0 (w.getD (t - 15) 0) + w.getD (t - 16) 0) % wordMod
    buildSchedule f (w ++ [wt])

/-- One SHA-256 compression round on the eight working registers. -/
def compressRound (st : List Nat) (kw : Nat × Nat) : List Nat :=
  match st with
  | [a, b, c, d, e, f, g, h] =>
    let t1 := (h + bsig1 e + ch e f g + kw.1 + kw.2) % wordMod
    let t2 := (bsig0 a + maj a b c) % wordMod
    [(t1 + t2) % wordMod, a, b, c, (d + t1) % wordMod, e, f, g]
  | other => other

/-- Process one 64-byte block. -/
def processBlock (h : List Nat) (block : List Nat) : List Nat :=
  let w := buildSchedule 48 (toWords block)
  let st := (sha256K.zip w).foldl compressRound h
  (h.zip st).map (fun p => (p.1 + p.2) % wordMod)

/-- Big-endian bytes of a 32-bit word. -/
def wordBytes (w : Nat) : List Nat :=
  [(w >>> 24) &&& 255, (w >>> 16) &&& 255, (w >>> 8) &&& 255, w &&& 255]

/-- SHA-256 of a byte list, as the 32 digest bytes. -/
def sha256 (m : List Nat) : List Nat :=
  let padded := padMessage m
  ((toBlocks padded.length padded).foldl processBlock sha256H0).flatMap wordBytes

/-- UTF-8 encoding of one character (what `createHash(...).update(string)`
feeds to the hash). -/
def utf8Bytes (c : Char) : List Nat :=
  let n := c.toNat
  if n < 128 then [n]
  else if n < 2048 then [192 ||| (n >>> 6), 128 ||| (n &&& 63)]
  else if n < 65536 then
    [224 ||| (n >>> 12), 128 ||| ((n >>> 6) &&& 63), 128 ||| (n &&& 63)]
  else
    [240 ||| (n >>> 18), 128 ||| ((n >>> 12) &&& 63), 128 ||| ((n >>> 6) &&& 63),
     128 ||| (n &&& 63)]

/-- UTF-8 bytes of a string. -/
def strBytes (s : String) : List Nat := s.toList.flatMap utf8Bytes

example : sha256 (strBytes "abc") =
    [186, 120, 22, 191, 143, 1, 207, 234, 65, 65, 64, 222,
     93, 174, 34, 35, 176, 3, 97, 163, 150, 23, 122, 156,
     180, 16, 255, 97, 242, 0, 21, 173] := by rfl

/-- The fixed adjective wordlist (`ADJECTIVES`). -/
def ADJECTIVES : List String :=
  ["bouncy", "bubbly", "buzzy", "chaotic", "cheeky", "chilly", "chunky",
   "clever", "cosmic", "cranky", "crispy", "crunchy", "cuddly", "daring",
   "dizzy", "dreamy", "dusty", "fancy", "fizzy", "flashy", "fluffy",
   "frosty", "funky", "fuzzy", "giddy", "glitchy", "groovy", "grumpy",
   "gusty", "happy", "jazzy", "jiggly", "jolly", "jumpy", "lazy", "lucky",
   "mellow", "mighty", "misty", "moody", "nifty", "noble", "peppy",
   "plucky", "punchy", "quirky", "rusty", "salty", "sassy", "shiny",
   "silent", "silly", "sleepy", "sneaky", "snowy", "speedy", "spicy",
   "stormy", "sunny", "swift", "tangy", "tiny", "toasty", "turbo",
   "twisty", "wacky", "witty", "wobbly", "zappy", "zesty"]

/-- The fixed animal wordlist (`ANIMALS`). -/
def ANIMALS : List String :=
  ["alpaca", "axolotl", "badger", "bat", "beaver", "bison", "bunny",
   "capybara", "chameleon", "cheetah", "cobra", "corgi", "coyote", "crane",
   "crow", "dolphin", "donkey", "dragon", "eagle", "falcon", "ferret",
   "flamingo", "fox", "frog", "gecko", "goose", "hamster", "hawk",
   "hedgehog", "hippo", "hyena", "iguana", "jaguar", "koala", "lemur",
   "leopard", "llama", "lobster", "lynx", "mantis", "moose", "narwhal",
   "newt", "octopus", "otter", "owl", "panda", "parrot", "pelican",
   "penguin", "possum", "puffin", "quail", "rabbit", "raccoon", "raven",
   "salmon", "seal", "shark", "sloth", "sparrow", "squid", "tiger",
   "toucan", "turtle", "viper", "walrus", "wombat", "yak", "zebra"]

/-- The two wordlist indices derived from the SHA-256 hash of the seed:
`(hash[0] << 8 | hash[1]) % ADJECTIVES.length` and
`(hash[2] << 8 | hash[3]) % ANIMALS.length`. -/
def nameIndices (seed : String) : Nat × Nat :=
  let hash := sha256 (strBytes seed)
  ((hash.getD 0 0 * 256 + hash.getD 1 0) % ADJECTIVES.length,
   (hash.getD 2 0 * 256 + hash.getD 3 0) % ANIMALS.length)

/-- `generateName`: adjective, dash, animal. -/
def generateName (seed : String) : String :=
  ADJECTIVES.getD (nameIndices seed).1 "" ++ "-" ++ ANIMALS.getD (nameIndices seed).2 ""

example : generateName "test" = "gusty-lobster" := by rfl

theorem getD_mem_of_lt {α : Type} {l : List α} {n : Nat} (h : n < l.length) (d : α) :
    l.getD n d ∈ l := by
  rw [List.getD_eq_getElem?_getD, List.getElem?_eq_getElem h]
  exact List.getElem_mem h

/-- C8: `generateName(seed)` is an element of the adjective wordlist — the
one at the index bytes 0–1 of the SHA-256 hash of the seed select — a dash,
and an element of the animal wordlist — selected by bytes 2–3; and equal
seeds give equal names. -/
theorem c8_generateName_shape (seed : String) :
    ∃ adj ∈ ADJECTIVES, ∃ animal ∈ ANIMALS,
      generateName seed = adj ++ "-" ++ animal ∧
      adj = ADJECTIVES.getD (nameIndices seed).1 "" ∧
      animal = ANIMALS.getD (nameIndices seed).2 "" ∧
      ∀ seed2 : String, seed2 = seed → generateName seed2 = generateName seed := by
  have hadj : (nameIndices seed).1 < ADJECTIVES.length := by
    have h70 : ADJECTIVES.length = 70 := by rfl
    rw [nameIndices]
    simp only [h70]
    omega
  have hani : (nameIndices seed).2 < ANIMALS.length := by
    have h70 : ANIMALS.length = 70 := by rfl
    rw [nameIndices]
    simp only [h70]
    omega
  refine ⟨ADJECTIVES.getD (nameIndices seed).1 "", getD_mem_of_lt hadj "",
    ANIMALS.getD (nameIndices seed).2 "", getD_mem_of_lt hani "", rfl, rfl, rfl, ?_⟩
  intro seed2 h
  rw [h]

/-- C8 witness: the theorem instantiated at a concrete seed (for which
`generateName` evaluates to `gusty-lobster`). -/
theorem c8_generateName_shape_witness :
    ∃ adj ∈ ADJECTIVES, ∃ animal ∈ ANIMALS,
      generateName "test" = adj ++ "-" ++ animal ∧
      adj = ADJECTIVES.getD (nameIndices "test").1 "" ∧
      animal = ANIMALS.getD (nameIndices "test").2 "" ∧
      ∀ seed2 : String, seed2 = "test" → generateName seed2 = generateName "test" :=
  c8_generateName_shape "test"

end TalkTo
